import Mathlib

/-!
Verification development for the Smart Repository Assistant.
Shallow embedding of the issue/PR classification engine (`issue_bot.py`,
`config.py`), the analytics aggregators and health scorer (`analytics.py`),
and the webhook signature check and routing (`app.py`).

Text is modelled as Lean `String` / `List Char`; Python's `str.lower` is
modelled by ASCII `Char.toLower` (all taxonomy keywords are ASCII), and
Python's `kw in text` substring test is modelled by `substrB`.
Python floats are modelled by `ℚ` (the claims under study do not hinge on
rounding), and `float(inf)` defaults that arise only from a failed upstream
fetch are modelled by `Option` being `none` for the whole fetched record.
-/

/-- Python `s.lower()` (ASCII model). -/
def strLower (s : String) : String := ⟨s.data.map Char.toLower⟩

/-- Python `needle in hay` substring test. -/
def substrB (needle hay : String) : Bool :=
  hay.data.tails.any (fun t => needle.data.isPrefixOf t)

/-- Number of starting positions at which `needle` occurs in `hay`
(counts every occurrence, overlapping included). -/
def occCount (needle hay : String) : Nat :=
  (hay.data.tails.filter (fun t => needle.data.isPrefixOf t)).length

/-- Embeds `f"{title} {body}".lower()` as used by the classifier. -/
def issueText (title body : String) : String :=
  strLower (title ++ " " ++ body)

namespace Config

/-- Embeds `Config.ISSUE_LABELS` from `config.py`, as an ordered association list
(Python dicts iterate in declaration order). -/
def ISSUE_LABELS : List (String × List String) :=
  [ ("bug", ["bug", "error", "crash", "broken", "not working", "fail"]),
    ("feature", ["feature", "enhancement", "new", "add", "implement"]),
    ("documentation", ["doc", "documentation", "readme", "guide", "help"]),
    ("question", ["question", "help", "how to", "support"]),
    ("performance", ["performance", "slow", "optimization", "speed"]),
    ("security", ["security", "vulnerability", "auth", "permission"]),
    ("maintenance", ["maintenance", "cleanup", "refactor", "update"]),
    ("ci/cd", ["ci", "cd", "build", "deploy", "pipeline", "test"]) ]

/-- Embeds `Config.PRIORITY_KEYWORDS` from `config.py`, in declaration order. -/
def PRIORITY_KEYWORDS : List (String × List String) :=
  [ ("critical", ["critical", "urgent", "emergency", "blocking"]),
    ("high", ["high", "important", "asap"]),
    ("medium", ["medium", "normal"]),
    ("low", ["low", "minor", "nice to have"]) ]

end Config

/-- Embeds `sum(1 for keyword in keywords if keyword in text)` from
`IssueClassifier.classify_issue_type`: each keyword contributes at most 1. -/
def presenceScore (keywords : List String) (text : String) : Nat :=
  keywords.countP (fun kw => substrB kw text)

/-- Total number of keyword occurrences of a category in the text.
This is the scoring rule as worded by the claim ("count of keyword
occurrences"); it differs from the source, which counts each keyword at
most once. -/
def occScore (keywords : List String) (text : String) : Nat :=
  (keywords.map (fun kw => occCount kw text)).sum

/-- One step of Python `max(scores, key=scores.get)`: keep the incumbent
unless the new entry is strictly greater (so the first maximum wins). -/
def scoreStep (best p : String × Nat) : String × Nat :=
  if p.2 > best.2 then p else best

/-- Python `max(scores, key=scores.get)` over an association list in dict
insertion order; `none` on the empty dict. -/
def maxKey (l : List (String × Nat)) : Option String :=
  match l with
  | [] => none
  | x :: xs => some (xs.foldl scoreStep x).1

/-- Specification-side description of `maxKey`: the first entry attaining
the maximal value, computed by right recursion. -/
def specFirstMax : List (String × Nat) → Option (String × Nat)
  | [] => none
  | x :: xs =>
    match specFirstMax xs with
    | none => some x
    | some y => if x.2 < y.2 then some y else some x

/-- Embeds `IssueClassifier.classify_issue_type` from `issue_bot.py`: keep only
categories with positive presence score (in taxonomy declaration order) and
take the first key with the maximal score; `"general"` when no keyword of
any category appears. -/
def classify_issue_type (title body : String) : String :=
  let text := issueText title body
  let scores := Config.ISSUE_LABELS.filterMap (fun p =>
    let s := presenceScore p.2 text
    if 0 < s then some (p.1, s) else none)
  (maxKey scores).getD "general"

/-- The classifier as worded by the claim: identical pipeline but scoring
each category by the total number of keyword occurrences. Declared only to
compare the claim's wording with the source behaviour. -/
def classify_issue_type_occ (title body : String) : String :=
  let text := issueText title body
  let scores := Config.ISSUE_LABELS.filterMap (fun p =>
    let s := occScore p.2 text
    if 0 < s then some (p.1, s) else none)
  (maxKey scores).getD "general"

/-- Embeds `any(keyword in text for keyword in keywords)`. -/
def anyKeyword (keywords : List String) (text : String) : Bool :=
  keywords.any (fun kw => substrB kw text)

/-- Embeds `IssueClassifier.determine_priority` from `issue_bot.py`: first
priority list (declaration order) with any keyword present wins, default
`"medium"`. -/
def determine_priority (title body : String) : String :=
  let text := issueText title body
  match Config.PRIORITY_KEYWORDS.find? (fun p => anyKeyword p.2 text) with
  | some p => p.1
  | none => "medium"

/-- Embeds `SmartIssueBot._determine_pr_size` from `issue_bot.py`. -/
def determine_pr_size (additions deletions : Nat) : String :=
  let total_changes := additions + deletions
  if total_changes < 20 then "size:small"
  else if total_changes < 100 then "size:medium"
  else if total_changes < 500 then "size:large"
  else "size:xl"

/-- The inline PR-size bucketing of
`RepositoryAnalyzer.get_pull_request_analytics` (`analytics.py` lines
153-163), which increments `pr_sizes[bucket]`. -/
def pr_size_bucket (additions deletions : Nat) : String :=
  let total_changes := additions + deletions
  if total_changes < 20 then "small"
  else if total_changes < 100 then "medium"
  else if total_changes < 500 then "large"
  else "xl"

/-! Section: Health scorer (`analytics.py`, `calculate_health_score`)

Each upstream fetch (`get_basic_stats`, `get_commit_activity`,
`get_issue_analytics`, `get_pull_request_analytics`) returns a populated
dict on success and `{}` on any caught exception.  A fetch result is
modelled as an `Option` of a record: `none` models the `{}` of a failed
fetch, in which case every `.get(key, default)` lookup in the scorer falls
back to its default (`0`, or `float(inf)` for the two time averages, which
then satisfies no `<` comparison and contributes 0). -/

/-- Fields of `get_basic_stats` read by the scorer.  `has_description`
models the truthiness of `description` (non-null, non-empty). -/
structure BasicStats where
  has_description : Bool
  stars : Nat
  forks : Nat

/-- Field of `get_commit_activity(30)` read by the scorer. -/
structure CommitActivity where
  total_commits : Nat

/-- Fields of `get_issue_analytics` read by the scorer.  When the fetch
succeeds both keys are present and finite. -/
structure IssueStats where
  close_rate : ℚ
  avg_response_time_hours : ℚ

/-- Fields of `get_pull_request_analytics` read by the scorer. -/
structure PRStats where
  merge_rate : ℚ
  avg_merge_time_hours : ℚ

/-- Adds 5 when `basic_stats.get('description')` is truthy. -/
def descContrib (b : Option BasicStats) : ℚ :=
  match b with
  | some s => if s.has_description then 5 else 0
  | none => 0

/-- Adds 5 when `basic_stats.get('stars', 0) > 10`. -/
def starsContrib (b : Option BasicStats) : ℚ :=
  match b with
  | some s => if s.stars > 10 then 5 else 0
  | none => 0

/-- Adds 5 when `basic_stats.get('forks', 0) > 5`. -/
def forksContrib (b : Option BasicStats) : ℚ :=
  match b with
  | some s => if s.forks > 5 then 5 else 0
  | none => 0

/-- Embeds `if recent_commits > 0: score += min(15, recent_commits)`. -/
def commitsContrib (c : Option CommitActivity) : ℚ :=
  match c with
  | some a => if a.total_commits > 0 then min 15 (a.total_commits : ℚ) else 0
  | none => 0

/-- Embeds `score += min(15, close_rate * 0.15)` with `close_rate` defaulting
to 0 on a failed fetch. -/
def closeRateContrib (i : Option IssueStats) : ℚ :=
  min 15 ((match i with | some s => s.close_rate | none => 0) * (15 / 100))

/-- Response-time band: `<24h: +10`, `<72h: +5`, else 0; a failed fetch
defaults the average to `float(inf)`, which falls in the else branch. -/
def responseContrib (i : Option IssueStats) : ℚ :=
  match i with
  | some s =>
    if s.avg_response_time_hours < 24 then 10
    else if s.avg_response_time_hours < 72 then 5
    else 0
  | none => 0

/-- Embeds `score += min(10, merge_rate * 0.1)` with `merge_rate` defaulting to 0
on a failed fetch. -/
def mergeRateContrib (p : Option PRStats) : ℚ :=
  min 10 ((match p with | some s => s.merge_rate | none => 0) * (1 / 10))

/-- Merge-time band: `<48h: +10`, `<168h: +5`, else 0; a failed fetch
defaults the average to `float(inf)`, which falls in the else branch. -/
def mergeTimeContrib (p : Option PRStats) : ℚ :=
  match p with
  | some s =>
    if s.avg_merge_time_hours < 48 then 10
    else if s.avg_merge_time_hours < 168 then 5
    else 0
  | none => 0

/-- The running total accumulated by `calculate_health_score` before the
final clamp. -/
def sumContrib (b : Option BasicStats) (c : Option CommitActivity)
    (i : Option IssueStats) (p : Option PRStats) : ℚ :=
  descContrib b + starsContrib b + forksContrib b + commitsContrib c +
    closeRateContrib i + responseContrib i + mergeRateContrib p +
    mergeTimeContrib p

/-- Embeds `RepositoryAnalyzer.calculate_health_score`: the clamped sum
`min(100, max(0, score))`.  The function is total by construction; the
source's outer `try/except` (which would return 0) can never fire in the
model because every fetch failure is already absorbed by the `Option`
defaults. -/
def calculate_health_score (b : Option BasicStats) (c : Option CommitActivity)
    (i : Option IssueStats) (p : Option PRStats) : ℚ :=
  min 100 (max 0 (sumContrib b c i p))

/-- The `/health` endpoint's status bucketing from `app.py`. -/
def health_status (score : ℚ) : String :=
  if 90 ≤ score then "excellent"
  else if 75 ≤ score then "good"
  else if 60 ≤ score then "fair"
  else "poor"

/-! Section: Aggregator averages (`analytics.py`)

Timestamps are modelled as rationals (seconds); `(t2 - t1).total_seconds()
/ 3600` becomes `(t2 - t1) / 3600`. -/

/-- The fields of an issue read by `get_issue_analytics` for the close-time
and response-time averages.  `comment_times` lists the creation times of
the issue's comments in API order (the first entry is the first comment). -/
structure IssueRec where
  state : String
  created_at : ℚ
  closed_at : Option ℚ
  comment_times : List ℚ

/-- The fields of a pull request read by `get_pull_request_analytics` for
the merge-time average. -/
structure PRRec where
  created_at : ℚ
  merged_at : Option ℚ
  additions : Nat
  deletions : Nat

/-- Embeds `close_times`: hours to close, collected only for issues with
`state == 'closed'` and a (truthy) `closed_at`. -/
def close_times (issues : List IssueRec) : List ℚ :=
  issues.filterMap (fun i =>
    if i.state = "closed" then i.closed_at.map (fun c => (c - i.created_at) / 3600)
    else none)

/-- Embeds `response_times`: hours to first comment, collected only for issues
with at least one comment. -/
def response_times (issues : List IssueRec) : List ℚ :=
  issues.filterMap (fun i =>
    match i.comment_times with
    | [] => none
    | t :: _ => some ((t - i.created_at) / 3600))

/-- Embeds `merge_times`: hours to merge, collected only for pull requests with a
(truthy) `merged_at`. -/
def merge_times (pulls : List PRRec) : List ℚ :=
  pulls.filterMap (fun p => p.merged_at.map (fun m => (m - p.created_at) / 3600))

/-- Embeds `np.mean(l) if l else 0`. -/
def listMean (l : List ℚ) : ℚ :=
  if l = [] then 0 else l.sum / l.length

/-- Embeds `avg_close_time_hours` of `get_issue_analytics`. -/
def avg_close_time (issues : List IssueRec) : ℚ := listMean (close_times issues)

/-- Embeds `avg_response_time_hours` of `get_issue_analytics`. -/
def avg_response_time (issues : List IssueRec) : ℚ := listMean (response_times issues)

/-- Embeds `avg_merge_time_hours` of `get_pull_request_analytics`. -/
def avg_merge_time (pulls : List PRRec) : ℚ := listMean (merge_times pulls)

/-! Section: Webhook signature verification and routing (`app.py`)

The HMAC-SHA256 primitive comes from Python's `hmac`/`hashlib` standard
library, external to this repository, so the embedding is parametric in a
function `hmacHex : String → List Nat → String` mapping the configured
secret and the raw request body (a byte list) to the lower-case hex digest.
The configured secret is `Option String` (`None` when the environment
variable is unset); Python's `if not secret` also treats `""` as absent. -/

/-- Embeds `verify_webhook_signature` from `app.py`. -/
def verify_webhook_signature (hmacHex : String → List Nat → String)
    (secret : Option String) (payload_body : List Nat)
    (signature_header : Option String) : Bool :=
  match secret with
  | none => true
  | some s =>
    if s = "" then true
    else
      match signature_header with
      | none => false
      | some sig =>
        if sig = "" then false
        else ("sha256=" ++ hmacHex s payload_body) == sig

/-- Which classification pipeline entry point the webhook route invoked. -/
inductive PipelineCall where
  | issue
  | pullRequest
deriving DecidableEq

/-- The `/webhook` route from `app.py`, as a pure function from the request
data to the HTTP response `(status, message)` and the pipeline call it
performs (if any).  `payload` is `request.get_json()`: `none` models a
missing/falsy payload (the 400 branch). -/
def webhook (hmacHex : String → List Nat → String) (secret : Option String)
    (body : List Nat) (sigHeader : Option String) (eventType : Option String)
    (payload : Option Unit) : (Nat × String) × Option PipelineCall :=
  if verify_webhook_signature hmacHex secret body sigHeader then
    match payload with
    | none => ((400, "Invalid payload"), none)
    | some _ =>
      match eventType with
      | some "issues" => ((200, "Issue processed successfully"), some .issue)
      | some "pull_request" =>
        ((200, "Pull request processed successfully"), some .pullRequest)
      | some "ping" => ((200, "Webhook is working!"), none)
      | _ =>
        ((200, "Event " ++ eventType.getD "None" ++ " received but not processed"),
          none)
  else ((401, "Invalid signature"), none)

/-! Section: Component extraction (`issue_bot.py`, `extract_components`)

The five patterns are concrete, so each `re.findall(pattern, body,
re.IGNORECASE)` is embedded as a direct scanner with Python's leftmost,
non-overlapping match semantics.  The scanners take a fuel argument for
structural recursion; fuel equal to the input length is always sufficient
because every step consumes at least one character. -/

/-- Split at the first backtick: `some (content, rest)` when the input is
`content ++ [backtick] ++ rest` with no backtick in `content`. -/
def splitAtBacktick : List Char → Option (List Char × List Char)
  | [] => none
  | c :: rest =>
    if c = '`' then some ([], rest)
    else
      match splitAtBacktick rest with
      | some (content, r) => some (c :: content, r)
      | none => none

/-- Case-insensitive character comparison (ASCII model of `re.IGNORECASE`). -/
def chEqCI (a b : Char) : Bool := a.toLower == b.toLower

/-- Python `s.lower()` on a character list. -/
def lowerL (s : List Char) : List Char := s.map Char.toLower

/-- Does `s` end with `suffix`, case-insensitively? -/
def endsWithCI (suffix s : List Char) : Bool :=
  (lowerL suffix).isSuffixOf (lowerL s)

/-- Fueled `re.findall` for a pattern of shape backtick, `[^`]+` ending in
the literal extension `ext`, backtick: the delimited content must be
strictly longer than `ext` (the `[^`]+` part needs at least one character
before the extension) and end with `ext` case-insensitively.  On a failed
attempt the scan resumes right after the opening backtick, exactly as the
regex engine advances by one position. -/
def backtickFindallF (ext : List Char) : Nat → List Char → List (List Char)
  | 0, _ => []
  | _ + 1, [] => []
  | fuel + 1, c :: rest =>
    if c = '`' then
      match splitAtBacktick rest with
      | some (content, r) =>
        if ext.length < content.length && endsWithCI ext content then
          content :: backtickFindallF ext fuel r
        else backtickFindallF ext fuel rest
      | none => []
    else backtickFindallF ext fuel rest

/-- Embeds `re.findall` for the three backtick-delimited file patterns. -/
def backtickFindall (ext s : List Char) : List (List Char) :=
  backtickFindallF ext s.length s

/-- Python `\w` for ASCII text. -/
def isWordChar (c : Char) : Bool := c.isAlphanum || c == '_'

/-- Maximal `\w+` run at the head of the input, with the remainder. -/
def takeWord : List Char → List Char × List Char
  | [] => ([], [])
  | c :: rest =>
    if isWordChar c then
      let p := takeWord rest
      (c :: p.1, p.2)
    else ([], c :: rest)

/-- Match a literal case-insensitively at the head of the input, returning
the remainder on success. -/
def matchLitCI : List Char → List Char → Option (List Char)
  | [], s => some s
  | _ :: _, [] => none
  | p :: ps, c :: cs => if chEqCI p c then matchLitCI ps cs else none

/-- Fueled `re.findall(r'in (\w+) module', body, re.IGNORECASE)`.  Because
`\w+` is followed by a space, shortening a maximal word run can never make
the literal ` module` match, so no backtracking inside the run is needed;
a failed attempt resumes one position to the right. -/
def inModuleFindallF : Nat → List Char → List (List Char)
  | 0, _ => []
  | _ + 1, [] => []
  | fuel + 1, c :: rest =>
    match matchLitCI ['i', 'n', ' '] (c :: rest) with
    | some s1 =>
      let w := (takeWord s1).1
      let s2 := (takeWord s1).2
      if w.isEmpty then inModuleFindallF fuel rest
      else
        match matchLitCI [' ', 'm', 'o', 'd', 'u', 'l', 'e'] s2 with
        | some s3 => w :: inModuleFindallF fuel s3
        | none => inModuleFindallF fuel rest
    | none => inModuleFindallF fuel rest

/-- Embeds `re.findall(r'in (\w+) module', body, re.IGNORECASE)`. -/
def inModuleFindall (s : List Char) : List (List Char) :=
  inModuleFindallF s.length s

/-- Fueled `re.findall(r'(\w+) component', body, re.IGNORECASE)`.  Every
start position inside one maximal word run fails or succeeds together with
the run's head position, so on failure the scan can resume after the run. -/
def componentFindallF : Nat → List Char → List (List Char)
  | 0, _ => []
  | _ + 1, [] => []
  | fuel + 1, c :: rest =>
    if isWordChar c then
      let w := (takeWord (c :: rest)).1
      let s2 := (takeWord (c :: rest)).2
      match matchLitCI [' ', 'c', 'o', 'm', 'p', 'o', 'n', 'e', 'n', 't'] s2 with
      | some s3 => w :: componentFindallF fuel s3
      | none => componentFindallF fuel s2
    else componentFindallF fuel rest

/-- Embeds `re.findall(r'(\w+) component', body, re.IGNORECASE)`. -/
def componentFindall (s : List Char) : List (List Char) :=
  componentFindallF s.length s

/-- All captured groups, in regex pattern list order and then match order
within each pattern, before deduplication (`components` in the source just
before `return list(set(components))`). -/
def allPatternMatches (body : String) : List (List Char) :=
  backtickFindall ['.', 'p', 'y'] body.data ++
    backtickFindall ['.', 'j', 's'] body.data ++
    backtickFindall ['.', 'h', 't', 'm', 'l'] body.data ++
    inModuleFindall body.data ++
    componentFindall body.data

/-- Embeds `IssueClassifier.extract_components`: `list(set(components))`.  The
Python set deduplicates by exact string equality and iterates in an
unspecified (hash-based) order; the embedding fixes `List.dedup` as one
representative order, and stated properties about the result are
order-independent. -/
def extract_components (body : String) : List (List Char) :=
  (allPatternMatches body).dedup

/-- The `component:` labels built by `_classify_and_label_issue`
(`for component in components[:3]`). -/
def component_labels (body : String) : List (List Char) :=
  ((extract_components body).take 3).map
    (fun c => ['c', 'o', 'm', 'p', 'o', 'n', 'e', 'n', 't', ':'] ++ c)

/-! Section: Helper lemmas -/

theorem specFirstMax_cons (z : String × Nat) (l : List (String × Nat)) :
    specFirstMax (z :: l) =
      match specFirstMax l with
      | none => some z
      | some y => if z.2 < y.2 then some y else some z := rfl

theorem foldl_scoreStep_eq (xs : List (String × Nat)) :
    ∀ x, some (xs.foldl scoreStep x) = specFirstMax (x :: xs) := by
  induction xs with
  | nil => intro x; rfl
  | cons a as ih =>
    intro x
    rw [List.foldl_cons, ih (scoreStep x a)]
    cases h : specFirstMax as with
    | none =>
      simp only [specFirstMax_cons, h, scoreStep]
      by_cases hc : x.2 < a.2 <;> simp [hc, gt_iff_lt]
    | some y =>
      simp only [specFirstMax_cons, h, scoreStep]
      by_cases h1 : x.2 < a.2 <;> by_cases h2 : a.2 < y.2 <;>
        by_cases h3 : x.2 < y.2 <;> simp [h1, h2, h3, gt_iff_lt] <;> omega

theorem specFirstMax_mem :
    ∀ (l : List (String × Nat)) (y : String × Nat),
      specFirstMax l = some y → y ∈ l := by
  intro l
  induction l with
  | nil => intro y h; cases h
  | cons a as ih =>
    intro y h
    simp only [specFirstMax_cons] at h
    cases hm : specFirstMax as with
    | none => simp only [hm] at h; cases h; exact List.mem_cons_self a as
    | some w =>
      simp only [hm] at h
      split_ifs at h with hlt
      · have hw : w = y := by injection h
        subst hw
        exact List.mem_cons_of_mem a (ih w hm)
      · have ha : a = y := by injection h
        subst ha
        exact List.mem_cons_self a as

theorem specFirstMax_first (p : String × Nat) :
    ∀ (l1 l2 : List (String × Nat)),
      (∀ q ∈ l1, q.2 < p.2) → (∀ q ∈ l2, q.2 ≤ p.2) →
      specFirstMax (l1 ++ p :: l2) = some p := by
  intro l1
  induction l1 with
  | nil =>
    intro l2 _ h2
    rw [List.nil_append]
    simp only [specFirstMax_cons]
    cases hm : specFirstMax l2 with
    | none => rfl
    | some y =>
      have hy : ¬p.2 < y.2 := not_lt.mpr (h2 y (specFirstMax_mem l2 y hm))
      simp [hm, hy]
  | cons a l1t ih =>
    intro l2 h1 h2
    rw [List.cons_append]
    simp only [specFirstMax_cons,
      ih l2 (fun q hq => h1 q (List.mem_cons_of_mem a hq)) h2]
    have ha : a.2 < p.2 := h1 a (List.mem_cons_self a l1t)
    simp [ha]

theorem find4_eq {α : Type} (p : α → Bool) (a b c d : α) :
    List.find? p [a, b, c, d] =
      if p a then some a
      else if p b then some b
      else if p c then some c
      else if p d then some d
      else none := by
  cases ha : p a <;> cases hb : p b <;> cases hc : p c <;> cases hd : p d <;>
    simp [List.find?, ha, hb, hc, hd]

theorem maxKey_eq (l : List (String × Nat)) :
    maxKey l = (specFirstMax l).map Prod.fst := by
  cases l with
  | nil => rfl
  | cons x xs =>
    show some (xs.foldl scoreStep x).1 = (specFirstMax (x :: xs)).map Prod.fst
    rw [← foldl_scoreStep_eq xs x]
    rfl

/-! Section: Claims -/

/-- C6: for all non-negative `additions` and `deletions` with
`total = additions + deletions`, `_determine_pr_size` yields `size:small`
for `total < 20`, `size:medium` for `20 ≤ total < 100`, `size:large` for
`100 ≤ total < 500`, `size:xl` for `total ≥ 500`; in particular total 19
maps to small, 20 and 99 to medium, 100 and 499 to large, 500 to xl. -/
theorem pr_size_banding (additions deletions : Nat) :
    ((additions + deletions < 20 →
      determine_pr_size additions deletions = "size:small")
  ∧ (20 ≤ additions + deletions → additions + deletions < 100 →
      determine_pr_size additions deletions = "size:medium")
  ∧ (100 ≤ additions + deletions → additions + deletions < 500 →
      determine_pr_size additions deletions = "size:large")
  ∧ (500 ≤ additions + deletions →
      determine_pr_size additions deletions = "size:xl"))
  ∧ determine_pr_size 19 0 = "size:small"
  ∧ determine_pr_size 20 0 = "size:medium"
  ∧ determine_pr_size 99 0 = "size:medium"
  ∧ determine_pr_size 100 0 = "size:large"
  ∧ determine_pr_size 499 0 = "size:large"
  ∧ determine_pr_size 500 0 = "size:xl" := by
  refine ⟨⟨fun h => ?_, fun h1 h2 => ?_, fun h1 h2 => ?_, fun h => ?_⟩,
    by decide, by decide, by decide, by decide, by decide, by decide⟩ <;>
    (simp only [determine_pr_size]; split_ifs <;> first | rfl | omega)

/-- Witness for `pr_size_banding` at a concrete split 12 + 7 = 19. -/
theorem pr_size_banding_witness : determine_pr_size 12 7 = "size:small" :=
  (pr_size_banding 12 7).1.1 (by decide)

/-- C7: for every additions/deletions pair, the analytics size bucket of
`get_pull_request_analytics` equals the band of the label produced by
`_determine_pr_size`, i.e. the label is `size:` followed by the bucket. -/
theorem pr_size_bucket_shared (additions deletions : Nat) :
    determine_pr_size additions deletions =
      "size:" ++ pr_size_bucket additions deletions := by
  simp only [determine_pr_size, pr_size_bucket]
  split_ifs <;> rfl

/-- C5: the priority keyword lists are scanned in the fixed order
critical, high, medium, low; the first list with any keyword present as a
substring of the lower-cased text determines the priority; if no list
matches the result is `"medium"`; text containing `"urgent"` yields
`"critical"` even when lower-priority keywords are also present. -/
theorem priority_scan_order (title body : String) :
    (anyKeyword ["critical", "urgent", "emergency", "blocking"]
        (issueText title body) = true →
      determine_priority title body = "critical")
  ∧ (anyKeyword ["critical", "urgent", "emergency", "blocking"]
        (issueText title body) = false →
      anyKeyword ["high", "important", "asap"] (issueText title body) = true →
      determine_priority title body = "high")
  ∧ (anyKeyword ["critical", "urgent", "emergency", "blocking"]
        (issueText title body) = false →
      anyKeyword ["high", "important", "asap"] (issueText title body) = false →
      anyKeyword ["medium", "normal"] (issueText title body) = true →
      determine_priority title body = "medium")
  ∧ (anyKeyword ["critical", "urgent", "emergency", "blocking"]
        (issueText title body) = false →
      anyKeyword ["high", "important", "asap"] (issueText title body) = false →
      anyKeyword ["medium", "normal"] (issueText title body) = false →
      anyKeyword ["low", "minor", "nice to have"] (issueText title body) = true →
      determine_priority title body = "low")
  ∧ (anyKeyword ["critical", "urgent", "emergency", "blocking"]
        (issueText title body) = false →
      anyKeyword ["high", "important", "asap"] (issueText title body) = false →
      anyKeyword ["medium", "normal"] (issueText title body) = false →
      anyKeyword ["low", "minor", "nice to have"] (issueText title body) = false →
      determine_priority title body = "medium")
  ∧ (substrB "urgent" (issueText title body) = true →
      determine_priority title body = "critical") := by
  refine ⟨fun h1 => ?_, fun h1 h2 => ?_, fun h1 h2 h3 => ?_,
    fun h1 h2 h3 h4 => ?_, fun h1 h2 h3 h4 => ?_, fun hu => ?_⟩
  · simp only [determine_priority, Config.PRIORITY_KEYWORDS]
    rw [find4_eq]
    simp [h1]
  · simp only [determine_priority, Config.PRIORITY_KEYWORDS]
    rw [find4_eq]
    simp [h1, h2]
  · simp only [determine_priority, Config.PRIORITY_KEYWORDS]
    rw [find4_eq]
    simp [h1, h2, h3]
  · simp only [determine_priority, Config.PRIORITY_KEYWORDS]
    rw [find4_eq]
    simp [h1, h2, h3, h4]
  · simp only [determine_priority, Config.PRIORITY_KEYWORDS]
    rw [find4_eq]
    simp [h1, h2, h3, h4]
  · simp only [determine_priority, Config.PRIORITY_KEYWORDS]
    rw [find4_eq]
    have h1 : anyKeyword ["critical", "urgent", "emergency", "blocking"]
        (issueText title body) = true := by simp [anyKeyword, hu]
    simp [h1]

/-- Witness for `priority_scan_order`: text containing both `"urgent"`
and `"low"` is classified `"critical"`. -/
theorem priority_scan_order_witness :
    determine_priority "urgent: disk low" "" = "critical" :=
  (priority_scan_order "urgent: disk low" "").2.2.2.2.2 (by decide)

theorem descContrib_le (b : Option BasicStats) : descContrib b ≤ 5 := by
  cases b <;> simp [descContrib] <;> split_ifs <;> norm_num

theorem starsContrib_le (b : Option BasicStats) : starsContrib b ≤ 5 := by
  cases b <;> simp [starsContrib] <;> split_ifs <;> norm_num

theorem forksContrib_le (b : Option BasicStats) : forksContrib b ≤ 5 := by
  cases b <;> simp [forksContrib] <;> split_ifs <;> norm_num

theorem commitsContrib_le (c : Option CommitActivity) :
    commitsContrib c ≤ 15 := by
  cases c with
  | none => simp [commitsContrib]
  | some a =>
    simp only [commitsContrib]
    split_ifs
    · exact min_le_left _ _
    · norm_num

theorem closeRateContrib_le (i : Option IssueStats) :
    closeRateContrib i ≤ 15 := min_le_left _ _

theorem responseContrib_le (i : Option IssueStats) :
    responseContrib i ≤ 10 := by
  cases i <;> simp [responseContrib] <;> split_ifs <;> norm_num

theorem mergeRateContrib_le (p : Option PRStats) :
    mergeRateContrib p ≤ 10 := min_le_left _ _

theorem mergeTimeContrib_le (p : Option PRStats) :
    mergeTimeContrib p ≤ 10 := by
  cases p <;> simp [mergeTimeContrib] <;> split_ifs <;> norm_num

theorem sumContrib_le (b : Option BasicStats) (c : Option CommitActivity)
    (i : Option IssueStats) (p : Option PRStats) :
    sumContrib b c i p ≤ 75 := by
  have h1 := descContrib_le b
  have h2 := starsContrib_le b
  have h3 := forksContrib_le b
  have h4 := commitsContrib_le c
  have h5 := closeRateContrib_le i
  have h6 := responseContrib_le i
  have h7 := mergeRateContrib_le p
  have h8 := mergeTimeContrib_le p
  unfold sumContrib
  linarith

/-- C2 (amended): `calculate_health_score` is the sum of the
independently-capped contributions clamped to `[0, 100]`; with all inputs
at worst case (no description, 0 stars, 0 forks, 0 commits, 0% close rate,
and failed issue/PR fetches whose `float(inf)` time defaults satisfy no
band) the score is 0; with all inputs at best case the score is 75, never
exceeding 100. -/
theorem health_score_formula (b : Option BasicStats) (c : Option CommitActivity)
    (i : Option IssueStats) (p : Option PRStats) :
    calculate_health_score b c i p =
      min 100 (max 0 (descContrib b + starsContrib b + forksContrib b +
        commitsContrib c + closeRateContrib i + responseContrib i +
        mergeRateContrib p + mergeTimeContrib p))
  ∧ calculate_health_score b c i p ≤ 100
  ∧ calculate_health_score (some ⟨false, 0, 0⟩) (some ⟨0⟩) none none = 0
  ∧ calculate_health_score (some ⟨true, 11, 6⟩) (some ⟨15⟩)
      (some ⟨100, 0⟩) (some ⟨100, 0⟩) = 75 := by
  refine ⟨rfl, min_le_left _ _, ?_, ?_⟩ <;>
    norm_num [calculate_health_score, sumContrib, descContrib, starsContrib,
      forksContrib, commitsContrib, closeRateContrib, responseContrib,
      mergeRateContrib, mergeTimeContrib, min_def, max_def]

/-- C2 counterexample: at the all-best-case inputs the score is 75, not
100 — the upper clamp is not what bounds the best case. -/
theorem health_score_best_case_cex :
    calculate_health_score (some ⟨true, 11, 6⟩) (some ⟨15⟩)
        (some ⟨100, 0⟩) (some ⟨100, 0⟩) = 75
  ∧ calculate_health_score (some ⟨true, 11, 6⟩) (some ⟨15⟩)
        (some ⟨100, 0⟩) (some ⟨100, 0⟩) ≠ 100 := by
  constructor <;>
    norm_num [calculate_health_score, sumContrib, descContrib, starsContrib,
      forksContrib, commitsContrib, closeRateContrib, responseContrib,
      mergeRateContrib, mergeTimeContrib, min_def, max_def]

/-- C3: `calculate_health_score` is total by construction, and for every
combination of fetch results — including any failed fetch (`none`) — the
result lies in `[0, 100]`; each failed fetch contributes 0 for its
sub-metrics, and with every fetch failed the score is 0. -/
theorem health_score_total (b : Option BasicStats) (c : Option CommitActivity)
    (i : Option IssueStats) (p : Option PRStats) :
    (0 ≤ calculate_health_score b c i p
      ∧ calculate_health_score b c i p ≤ 100)
  ∧ descContrib none = 0 ∧ starsContrib none = 0 ∧ forksContrib none = 0
  ∧ commitsContrib none = 0 ∧ closeRateContrib none = 0
  ∧ responseContrib none = 0 ∧ mergeRateContrib none = 0
  ∧ mergeTimeContrib none = 0
  ∧ calculate_health_score none none none none = 0 := by
  refine ⟨⟨le_min (by norm_num) (le_max_left 0 _), min_le_left _ _⟩,
    rfl, rfl, rfl, rfl, ?_, rfl, ?_, rfl, ?_⟩ <;>
    norm_num [calculate_health_score, sumContrib, descContrib, starsContrib,
      forksContrib, commitsContrib, closeRateContrib, responseContrib,
      mergeRateContrib, mergeTimeContrib, min_def, max_def]

/-- C10: for every combination of inputs the health score is at most 75
(the caps sum to 75), so the upper clamp `min(100, _)` is never active and
the `/health` status `"excellent"` (score ≥ 90) is unreachable. -/
theorem health_score_at_most_75 (b : Option BasicStats)
    (c : Option CommitActivity) (i : Option IssueStats) (p : Option PRStats) :
    calculate_health_score b c i p ≤ 75
  ∧ calculate_health_score b c i p = max 0 (sumContrib b c i p)
  ∧ health_status (calculate_health_score b c i p) ≠ "excellent" := by
  have hsum : sumContrib b c i p ≤ 75 := sumContrib_le b c i p
  have hmax : max 0 (sumContrib b c i p) ≤ 75 := max_le (by norm_num) hsum
  have heq : calculate_health_score b c i p = max 0 (sumContrib b c i p) :=
    min_eq_right (le_trans hmax (by norm_num))
  refine ⟨heq ▸ hmax, heq, ?_⟩
  have hlt : ¬(90 ≤ calculate_health_score b c i p) := by
    rw [heq]; intro h; linarith
  simp only [health_status, if_neg hlt]
  split_ifs <;> decide

/-- C9: the close-time, response-time and merge-time averages are taken
only over records with the relevant timestamp pair defined (closed issues
with `closed_at`, issues with a first comment, merged PRs), and an empty
subset yields 0 rather than a division error: records outside the subset
leave the average unchanged, and when no record qualifies the average is 0. -/
theorem average_metric_totality :
    (∀ issues : List IssueRec,
      (∀ i ∈ issues, ¬(i.state = "closed" ∧ i.closed_at ≠ none)) →
      avg_close_time issues = 0)
  ∧ (∀ (i : IssueRec) (issues : List IssueRec),
      ¬(i.state = "closed" ∧ i.closed_at ≠ none) →
      avg_close_time (i :: issues) = avg_close_time issues)
  ∧ (∀ issues : List IssueRec, (∀ i ∈ issues, i.comment_times = []) →
      avg_response_time issues = 0)
  ∧ (∀ (i : IssueRec) (issues : List IssueRec), i.comment_times = [] →
      avg_response_time (i :: issues) = avg_response_time issues)
  ∧ (∀ pulls : List PRRec, (∀ p ∈ pulls, p.merged_at = none) →
      avg_merge_time pulls = 0)
  ∧ (∀ (p : PRRec) (pulls : List PRRec), p.merged_at = none →
      avg_merge_time (p :: pulls) = avg_merge_time pulls)
  ∧ avg_close_time [] = 0 ∧ avg_response_time [] = 0
  ∧ avg_merge_time [] = 0 := by
  have hcnone : ∀ i : IssueRec, ¬(i.state = "closed" ∧ i.closed_at ≠ none) →
      (if i.state = "closed" then i.closed_at.map (fun c => (c - i.created_at) / 3600)
       else none) = none := by
    intro i hi
    by_cases hs : i.state = "closed"
    · have : i.closed_at = none := by
        by_contra hc
        exact hi ⟨hs, hc⟩
      simp [hs, this]
    · simp [hs]
  have hrnone : ∀ i : IssueRec, i.comment_times = [] →
      (match i.comment_times with
       | [] => (none : Option ℚ)
       | t :: _ => some ((t - i.created_at) / 3600)) = none := by
    intro i hi
    rw [hi]
  have hmnone : ∀ p : PRRec, p.merged_at = none →
      p.merged_at.map (fun m => (m - p.created_at) / 3600) = none := by
    intro p hp
    rw [hp]
    rfl
  refine ⟨?_, ?_, ?_, ?_, ?_, ?_, rfl, rfl, rfl⟩
  · intro issues h
    have : close_times issues = [] := by
      rw [close_times, List.filterMap_eq_nil_iff]
      intro i hi
      exact hcnone i (h i hi)
    rw [avg_close_time, this, listMean, if_pos rfl]
  · intro i issues hi
    simp only [avg_close_time, close_times, List.filterMap_cons, hcnone i hi]
  · intro issues h
    have : response_times issues = [] := by
      rw [response_times, List.filterMap_eq_nil_iff]
      intro i hi
      exact hrnone i (h i hi)
    rw [avg_response_time, this, listMean, if_pos rfl]
  · intro i issues hi
    simp only [avg_response_time, response_times, List.filterMap_cons, hi]
  · intro pulls h
    have : merge_times pulls = [] := by
      rw [merge_times, List.filterMap_eq_nil_iff]
      intro p hp
      exact hmnone p (h p hp)
    rw [avg_merge_time, this, listMean, if_pos rfl]
  · intro p pulls hp
    simp only [avg_merge_time, merge_times, List.filterMap_cons, hp,
      Option.map_none']

/-- Witness for `average_metric_totality`: a single open issue with no
close timestamp yields average close time 0. -/
theorem average_metric_totality_witness :
    avg_close_time [⟨"open", 0, none, []⟩] = 0 :=
  average_metric_totality.1 [⟨"open", 0, none, []⟩] (by simp)

theorem sha256_append_ne_empty (y : String) : ("sha256=" ++ y) ≠ "" := by
  intro h
  have h2 : ("sha256=" ++ y).data = "".data := by rw [h]
  rw [String.data_append] at h2
  simp at h2

/-- C4: with a configured (non-empty) secret, verification succeeds iff
the `X-Hub-Signature-256` header equals `sha256=` followed by the HMAC hex
digest of the raw body under the secret; with no secret configured
verification always passes; and a request whose header differs from the
expected signature is answered 401 with no pipeline call.  The theorem is
parametric in the external HMAC-SHA256 primitive. -/
theorem webhook_signature_spec (hmacHex : String → List Nat → String)
    (s : String) (hs : s ≠ "") (body : List Nat) (header : Option String)
    (eventType : Option String) (payload : Option Unit) :
    (verify_webhook_signature hmacHex (some s) body header = true ↔
      header = some ("sha256=" ++ hmacHex s body))
  ∧ verify_webhook_signature hmacHex none body header = true
  ∧ (header ≠ some ("sha256=" ++ hmacHex s body) →
      webhook hmacHex (some s) body header eventType payload =
        ((401, "Invalid signature"), none)) := by
  have hiff : verify_webhook_signature hmacHex (some s) body header = true ↔
      header = some ("sha256=" ++ hmacHex s body) := by
    simp only [verify_webhook_signature, if_neg hs]
    cases header with
    | none => simp
    | some sig =>
      dsimp only
      by_cases hsig : sig = ""
      · subst hsig
        rw [if_pos rfl]
        refine ⟨fun h => Bool.noConfusion h, fun h => ?_⟩
        have h2 : ("" : String) = "sha256=" ++ hmacHex s body := by injection h
        exact absurd h2.symm (sha256_append_ne_empty (hmacHex s body))
      · rw [if_neg hsig, beq_iff_eq]
        constructor
        · intro h
          rw [← h]
        · intro h
          have h2 : sig = "sha256=" ++ hmacHex s body := by injection h
          rw [h2]
  refine ⟨hiff, rfl, fun hne => ?_⟩
  have hv : verify_webhook_signature hmacHex (some s) body header = false := by
    cases hb : verify_webhook_signature hmacHex (some s) body header
    · rfl
    · exact absurd (hiff.mp hb) hne
  simp [webhook, hv]

/-- Witness for `webhook_signature_spec`: a wrong signature is answered
401 and no pipeline entry point is called. -/
theorem webhook_signature_spec_witness :
    webhook (fun _ _ => "aa") (some "abc") [1, 2] (some "bad") (some "issues")
        (some ()) = ((401, "Invalid signature"), none) :=
  (webhook_signature_spec (fun _ _ => "aa") "abc" (by decide) [1, 2]
    (some "bad") (some "issues") (some ())).2.2 (by decide)

/-- C8 counterexample: for body `` `A.py` `a.py` `` the code returns both
`A.py` and `a.py` — two captures equal up to case — so the result is not
deduplicated case-insensitively (`list(set(...))` compares exact strings). -/
theorem extract_components_cex :
    ['A', '.', 'p', 'y'] ∈ extract_components "`A.py` `a.py`"
  ∧ ['a', '.', 'p', 'y'] ∈ extract_components "`A.py` `a.py`"
  ∧ lowerL ['A', '.', 'p', 'y'] = lowerL ['a', '.', 'p', 'y']
  ∧ ['A', '.', 'p', 'y'] ≠ ['a', '.', 'p', 'y'] := by decide

/-- C8 (amended): `extract_components` applies the fixed regex pattern
list case-insensitively and returns exactly the captured groups,
deduplicated by exact (case-sensitive) string equality, in an unspecified
(hash-set) order; the caller applies at most 3 `component:` labels. -/
theorem extract_components_spec (body : String) :
    (∀ x, x ∈ extract_components body ↔ x ∈ allPatternMatches body)
  ∧ (extract_components body).Nodup
  ∧ (component_labels body).length ≤ 3 := by
  refine ⟨fun x => List.mem_dedup, List.nodup_dedup _, ?_⟩
  rw [component_labels, List.length_map, List.length_take]
  exact min_le_left 3 _

/-- C1 counterexample: on title `bug bug bug`, body `add feature`, the
`bug` category has the strictly highest total-occurrence score (3, against
2 for `feature` and 0 for every other category), yet the classifier
returns `"feature"`, because the source scores each keyword at most once
(`bug` scores 1, `feature` scores 2). -/
theorem classify_occurrence_cex :
    occScore ["bug", "error", "crash", "broken", "not working", "fail"]
        (issueText "bug bug bug" "add feature") = 3
  ∧ (∀ p ∈ Config.ISSUE_LABELS, p.1 ≠ "bug" →
      occScore p.2 (issueText "bug bug bug" "add feature") < 3)
  ∧ classify_issue_type_occ "bug bug bug" "add feature" = "bug"
  ∧ classify_issue_type "bug bug bug" "add feature" = "feature" := by decide

/-- C1 (amended): the classifier lower-cases the concatenated text,
scores each taxonomy category by the number of its keywords occurring in
the text (case-insensitive substring match, each keyword counted at most
once), and returns the first category in taxonomy declaration order
(bug, feature, documentation, question, performance, security,
maintenance, ci/cd) whose score is positive and maximal — in particular
the category with the strictly highest score when one exists — and
`"general"` when no keyword appears anywhere. -/
theorem classify_first_positive_max (title body : String) :
    ((∀ p ∈ Config.ISSUE_LABELS,
        presenceScore p.2 (issueText title body) = 0) →
      classify_issue_type title body = "general")
  ∧ (∀ (l1 : List (String × List String)) (p : String × List String)
        (l2 : List (String × List String)),
      Config.ISSUE_LABELS = l1 ++ p :: l2 →
      0 < presenceScore p.2 (issueText title body) →
      (∀ q ∈ l1, presenceScore q.2 (issueText title body) <
        presenceScore p.2 (issueText title body)) →
      (∀ q ∈ l2, presenceScore q.2 (issueText title body) ≤
        presenceScore p.2 (issueText title body)) →
      classify_issue_type title body = p.1) := by
  constructor
  · intro h
    simp only [classify_issue_type]
    have hnil : Config.ISSUE_LABELS.filterMap (fun q =>
        if 0 < presenceScore q.2 (issueText title body) then
          some (q.1, presenceScore q.2 (issueText title body)) else none) = [] := by
      rw [List.filterMap_eq_nil_iff]
      intro a ha
      rw [h a ha]
      simp
    rw [hnil]
    rfl
  · intro l1 p l2 hsplit hpos h1 h2
    simp only [classify_issue_type]
    rw [hsplit, List.filterMap_append, List.filterMap_cons, if_pos hpos]
    rw [maxKey_eq, specFirstMax_first (p.1, presenceScore p.2 (issueText title body))]
    · rfl
    · intro q hq
      rw [List.mem_filterMap] at hq
      obtain ⟨a, ha, hfa⟩ := hq
      by_cases hp2 : 0 < presenceScore a.2 (issueText title body)
      · rw [if_pos hp2] at hfa
        have : q = (a.1, presenceScore a.2 (issueText title body)) := by
          injection hfa with h3
          exact h3.symm
        rw [this]
        exact h1 a ha
      · rw [if_neg hp2] at hfa
        cases hfa
    · intro q hq
      rw [List.mem_filterMap] at hq
      obtain ⟨a, ha, hfa⟩ := hq
      by_cases hp2 : 0 < presenceScore a.2 (issueText title body)
      · rw [if_pos hp2] at hfa
        have : q = (a.1, presenceScore a.2 (issueText title body)) := by
          injection hfa with h3
          exact h3.symm
        rw [this]
        exact h2 a ha
      · rw [if_neg hp2] at hfa
        cases hfa

/-- Witness for `classify_first_positive_max`: `bug` is the first category
of the taxonomy and has the strictly highest presence score (2) on this
text, and the classifier returns `"bug"`. -/
theorem classify_first_positive_max_witness :
    classify_issue_type "Bug: crash" "it crashes on click" = "bug" :=
  (classify_first_positive_max "Bug: crash" "it crashes on click").2
    [] ("bug", ["bug", "error", "crash", "broken", "not working", "fail"])
    (List.drop 1 Config.ISSUE_LABELS) rfl (by decide) (by decide) (by decide)
